import Mathlib

/-!
# A verification development for the go-oidc OpenID provider engine

This file shallowly embeds the parts of the go-oidc code base that the
checked properties talk about: the `goidc` package's constants, string
helpers and session types, the provider's start-up configuration
validators, the token-introspection engine, the authorization-flow
terminal step, the refresh-token grant, the client-assertion claim
validation, and the dynamic-client-registration scope validator.

Go maps that may be nil are embedded as `Option` over association lists;
Go slices as `List`; Go `int` as `Int` (or `Nat` for lengths that are
manifestly non-negative); fallible operations return `Option`.
Randomness (token generation) is passed in explicitly as a character
picker, mirroring the loop of `goidc.RandomString`.
-/

namespace Goidc

/-- The grant types of `pkg/goidc` (`GrantType` constants). -/
inductive GrantType where
  | clientCredentials
  | authorizationCode
  | refreshToken
  | implicit
  | introspection
deriving DecidableEq, Repr

/-- The client authentication methods of `pkg/goidc` (`ClientAuthnType`
constants); `noneAuthn` embeds `ClientAuthnNone` (`"none"`). -/
inductive ClientAuthnType where
  | noneAuthn
  | secretBasic
  | secretPost
  | secretJWT
  | privateKeyJWT
  | tlsClientAuth
  | selfSignedTLS
deriving DecidableEq, Repr

/-- The server profiles (`Profile` constants). -/
inductive Profile where
  | openID
  | fapi2
deriving DecidableEq, Repr

/-- The OAuth error codes surfaced by the engine (`ErrorCode` constants;
`invalidClientMetadata` is the DCR error kind `invalid_client_metadata`). -/
inductive ErrorCode where
  | accessDenied
  | invalidClient
  | invalidGrant
  | invalidRequest
  | unauthorizedClient
  | invalidScope
  | invalidClientMetadata
  | invalidToken
  | internalError
deriving DecidableEq, Repr

/-- The token formats (`TokenFormat` constants); `opaqueFormat` embeds
`TokenFormatOpaque`. -/
inductive TokenFormat where
  | jwt
  | opaqueFormat
deriving DecidableEq, Repr

/-- `goidc.AuthorizationCodeLength = 30` from `src/pkg/goidc/constant.go`. -/
def AuthorizationCodeLength : Nat := 30

/-- `goidc.RefreshTokenLength = 99` from `src/pkg/goidc/constant.go`: an
unusual value so refresh tokens and opaque access tokens are not confused,
a refresh token being identified by its length during introspection. -/
def RefreshTokenLength : Nat := 99

/-- `goidc.ClientSecretCharset` from `src/pkg/goidc/constant.go`. -/
def ClientSecretCharset : List Char :=
  "abcdefghijklmnopqrstuvwxyzABCDEFGHIJKLMNOPQRSTUVWXYZ0123456789".toList

/-- `goidc.RandomString(n)` from `src/pkg/goidc/function.go`: build a string
of `n` characters of `ClientSecretCharset`, each picked by the random
source; the source is passed in as the picker `pick`. -/
def RandomString (pick : Nat → Fin ClientSecretCharset.length) (n : Nat) : String :=
  String.mk ((List.range n).map fun i => ClientSecretCharset.get (pick i))

/-- Go's `strings.Split(s, " ")` on the character list: split at every
space, keeping empty fields, so that `""` gives `[""]` and `"a b"` gives
`["a", "b"]`. -/
def splitAtSpaces : List Char → List (List Char)
  | [] => [[]]
  | c :: rest =>
    let fields := splitAtSpaces rest
    if c = ' ' then [] :: fields
    else
      match fields with
      | [] => [[c]]
      | field :: moreFields => (c :: field) :: moreFields

/-- Go's `strings.Split(s, " ")`. -/
def stringsSplitSpace (s : String) : List String :=
  (splitAtSpaces s.toList).map String.mk

/-- Go's `strings.ReplaceAll(s, " ", "")`: drop every space character. -/
def removeSpaces (s : String) : String :=
  String.mk (s.toList.filter (fun c => c != ' '))

/-- `goidc.SplitStringWithSpaces` from `src/pkg/goidc/function.go`.  The Go
code tests `ReplaceAll(Trim(s, " "), " ", "") != ""`; trimming spaces before
removing every space is redundant, so the embedding tests the result of
removing every space directly. -/
def SplitStringWithSpaces (s : String) : List String :=
  if removeSpaces s ≠ "" then stringsSplitSpace s else []

/-- `goidc.ContainsAll` from `src/pkg/goidc/function.go`. -/
def ContainsAll (superSet subSet : List String) : Bool :=
  subSet.all (fun e => superSet.contains e)

/-- `goidc.ContainsAllScopes` from `src/pkg/goidc/function.go`. -/
def ContainsAllScopes (scopesSuperSet scopesSubSet : String) : Bool :=
  ContainsAll (SplitStringWithSpaces scopesSuperSet) (SplitStringWithSpaces scopesSubSet)

/-- `goidc.ScopesContainsOpenID` from `src/pkg/goidc/function.go`
(`ScopeOpenID.ID` is the string `"openid"`). -/
def ScopesContainsOpenID (scopes : String) : Bool :=
  (SplitStringWithSpaces scopes).contains "openid"

/-- `ResponseType.Contains` from `src/pkg/goidc/constant.go`: a response
type is a space-separated string such as `"code id_token"`. -/
def ResponseTypeContains (rt t : String) : Bool :=
  (stringsSplitSpace rt).contains t

/-- The `goidc.GrantSession` record (the ledger of an issued grant), with
the fields the checked properties read.  Fields absent from `src` are named
after the spec's data model (§3). -/
structure GrantSession where
  id : String := ""
  tokenID : String := ""
  refreshToken : String := ""
  clientID : String := ""
  subject : String := ""
  grantedScopes : String := ""
  activeScopes : String := ""
  createdAtTimestamp : Int := 0
  lastTokenIssuedAtTimestamp : Int := 0
  expiresAtTimestamp : Int := 0
  tokenLifetimeSecs : Int := 0
  jwkThumbprint : String := ""
  clientCertificateThumbprint : String := ""
deriving DecidableEq, Repr

/-- Modelled from the spec: `GrantSession.IsRefreshSessionExpired` is not
under `src`; the spec says a refresh token is inactive when
`expires_at < now`. -/
def IsRefreshSessionExpired (now : Int) (g : GrantSession) : Bool :=
  g.expiresAtTimestamp < now

/-- Modelled from the spec: `GrantSession.HasLastTokenExpired` is not under
`src`; the spec says an access token is inactive when
`last_token_issued_at + token_lifetime < now`. -/
def HasLastTokenExpired (now : Int) (g : GrantSession) : Bool :=
  g.lastTokenIssuedAtTimestamp + g.tokenLifetimeSecs < now

/-! ## `Resources` JSON marshaling (`src/unnamed/part_001`) -/

/-- The JSON shapes relevant to the `Resources` codec: `null` (what a nil
slice marshals to), a bare JSON string, a JSON array of strings, or any
other JSON value (on which both of `UnmarshalJSON`'s decode attempts
fail). -/
inductive JSONValue where
  | null
  | str (s : String)
  | arr (elems : List String)
  | other
deriving DecidableEq, Repr

/-- A Go `Resources` value (`type Resources []string`): `none` embeds the
nil slice - the type's zero value - and `some elems` a non-nil slice with
elements `elems`.  The two are distinct Go values and marshal differently
(`null` versus a JSON array), although both have length 0 when `elems` is
empty. -/
abbrev Resources := Option (List String)

/-- `Resources.MarshalJSON`: when `len(resources) == 1` the single element
is marshaled as a bare JSON string (a nil slice has length 0, so only a
non-nil one-element slice takes this branch); otherwise
`json.Marshal([]string(resources))`, which emits `null` for the nil slice
and a JSON array for every other slice. -/
def resourcesMarshalJSON (resources : Resources) : JSONValue :=
  match resources with
  | some [resource] => JSONValue.str resource
  | none => JSONValue.null
  | some elems => JSONValue.arr elems

/-- `Resources.UnmarshalJSON`: first try `json.Unmarshal` into a `string`;
`encoding/json` treats `null` as a no-op success for such a target, leaving
the zero value `""`, so JSON `null` yields `[""]` exactly as a bare string
`s` yields `[s]`.  Otherwise decode into `[]string` (a JSON array, empty or
not, decodes to a non-nil slice); any other JSON value fails both attempts. -/
def resourcesUnmarshalJSON (data : JSONValue) : Option Resources :=
  match data with
  | JSONValue.null => some (some [""])
  | JSONValue.str resource => some (some [resource])
  | JSONValue.arr elems => some (some elems)
  | JSONValue.other => none

/-! ## `AuthnSession` claim setters (`src/unnamed/part_000`) -/

/-- A Go map that may be nil: `none` embeds the nil map. -/
abbrev GoMap (V : Type) := Option (List (String × V))

/-- Reading `m[k]` from a Go map: defined (as the zero value, here `none`)
even on a nil map. -/
def goMapLookup {V : Type} (m : GoMap V) (k : String) : Option V :=
  match m with
  | none => none
  | some entries => (entries.find? (fun e => e.1 == k)).map (fun e => e.2)

/-- Writing `m[k] = v` to a Go map: panics (`none`) on a nil map, else
yields the updated map. -/
def goMapAssign {V : Type} (m : GoMap V) (k : String) (v : V) : Option (GoMap V) :=
  match m with
  | none => none
  | some entries => some (some ((k, v) :: entries.filter (fun e => e.1 != k)))

/-- The `goidc.AuthnSession` record of `src/unnamed/part_000`, restricted to
the fields its setters touch; the map values (`any` in Go) are the type
parameter `V`. -/
structure AuthnSession (V : Type) where
  id : String := ""
  subject : String := ""
  store : GoMap V := none
  additionalTokenClaims : GoMap V := none
  additionalIDTokenClaims : GoMap V := none
  additionalUserInfoClaims : GoMap V := none

/-- The nil guard all four setters share: `if m == nil { m = make(map[string]any) }`. -/
def initIfNil {V : Type} (m : GoMap V) : GoMap V :=
  match m with
  | none => some []
  | some entries => some entries

/-- `AuthnSession.StoreParameter`: initialize `Store` when nil, then write.
The result is `none` exactly when the write panics (which the nil guard
prevents). -/
def StoreParameter {V : Type} (s : AuthnSession V) (key : String) (value : V) :
    Option (AuthnSession V) :=
  (goMapAssign (initIfNil s.store) key value).map (fun m => { s with store := m })

/-- `AuthnSession.Parameter`: read `s.Store[key]`. -/
def Parameter {V : Type} (s : AuthnSession V) (key : String) : Option V :=
  goMapLookup s.store key

/-- `AuthnSession.SetTokenClaim`: initialize `AdditionalTokenClaims` when
nil, then write. -/
def SetTokenClaim {V : Type} (s : AuthnSession V) (claim : String) (value : V) :
    Option (AuthnSession V) :=
  (goMapAssign (initIfNil s.additionalTokenClaims) claim value).map
    (fun m2 => { s with additionalTokenClaims := m2 })

/-- `AuthnSession.SetIDTokenClaim`: initialize `AdditionalIDTokenClaims`
when nil, then write. -/
def SetIDTokenClaim {V : Type} (s : AuthnSession V) (claim : String) (value : V) :
    Option (AuthnSession V) :=
  (goMapAssign (initIfNil s.additionalIDTokenClaims) claim value).map
    (fun m2 => { s with additionalIDTokenClaims := m2 })

/-- `AuthnSession.SetUserInfoClaim`: initialize `AdditionalUserInfoClaims`
when nil, then write. -/
def SetUserInfoClaim {V : Type} (s : AuthnSession V) (claim : String) (value : V) :
    Option (AuthnSession V) :=
  (goMapAssign (initIfNil s.additionalUserInfoClaims) claim value).map
    (fun m2 => { s with additionalUserInfoClaims := m2 })

end Goidc

namespace Provider

open Goidc

/-- The provider configuration fields read by the start-up validators
modelled here (the `provider.config` of the `provider` package). -/
structure Config where
  profile : Profile := Profile.openID
  clientAuthnMethods : List ClientAuthnType := []
  introspectionIsEnabled : Bool := false
  introspectionClientAuthnMethods : List ClientAuthnType := []
  grantTypes : List GrantType := []
  parIsEnabled : Bool := false
  parIsRequired : Bool := false
  pkceIsEnabled : Bool := false
  pkceIsRequired : Bool := false
  issuerRespParamIsEnabled : Bool := false
  refreshTokenRotationIsEnabled : Bool := false
deriving DecidableEq, Repr

/-- `validateIntrospectionClientAuthnMethods` of the `provider` package:
nothing to check when introspection is disabled; otherwise error when
`ClientAuthnMethods` does NOT contain `none` (sic: the Go condition is
`!slices.Contains(provider.config.ClientAuthnMethods, goidc.ClientAuthnNone)`),
and error when some introspection authn method is not among the server's
`ClientAuthnMethods`. -/
def validateIntrospectionClientAuthnMethods (cfg : Config) : Option String :=
  if ¬ cfg.introspectionIsEnabled then none
  else if ¬ cfg.clientAuthnMethods.contains ClientAuthnType.noneAuthn then
    some "none client authentication method not allowed for token introspection"
  else if cfg.introspectionClientAuthnMethods.any
      (fun method => ¬ cfg.clientAuthnMethods.contains method) then
    some "invalid client authentication method for token introspection"
  else none

/-- `validateFAPI2Profile` of the `provider` package: for the FAPI 2.0
profile, only `private_key_jwt` and `tls_client_auth` client authentication,
no implicit grant, PAR enabled and required, PKCE enabled and required, the
issuer response parameter enabled, and no refresh-token rotation together
with the refresh-token grant. -/
def validateFAPI2Profile (cfg : Config) : Option String :=
  if cfg.profile ≠ Profile.fapi2 then none
  else if cfg.clientAuthnMethods.any (fun authnMethod =>
      authnMethod != ClientAuthnType.privateKeyJWT &&
      authnMethod != ClientAuthnType.tlsClientAuth) then
    some "only private_key_jwt and tls_client_auth are allowed for FAPI 2.0"
  else if cfg.grantTypes.contains GrantType.implicit then
    some "the implict grant is not allowed for FAPI 2.0"
  else if !cfg.parIsEnabled || !cfg.parIsRequired then
    some "pushed authorization requests is required for FAPI 2.0"
  else if !cfg.pkceIsEnabled || !cfg.pkceIsRequired then
    some "proof key for code exchange is required for FAPI 2.0"
  else if !cfg.issuerRespParamIsEnabled then
    some "the issuer response parameter is required for FAPI 2.0"
  else if cfg.grantTypes.contains GrantType.refreshToken &&
      cfg.refreshTokenRotationIsEnabled then
    some "refresh token rotation is not implemented according to FAPI 2.0, so it shouldn't be enabled when using this profile"
  else none

end Provider

namespace Introspection

open Goidc

/-- The subset of a token-introspection response the introspection engine
fills in (`utils.TokenIntrospectionInfo`); default values are the Go zero
values of the inactive response. -/
structure TokenIntrospectionInfo where
  isActive : Bool := false
  scopes : String := ""
  clientID : String := ""
  subject : String := ""
  expiresAtTimestamp : Int := 0
  jwkThumbprint : String := ""
  clientCertificateThumbprint : String := ""
deriving DecidableEq, Repr

/-- The claims of a verified JWT, restricted to what introspection reads:
`tokenID` is `claims["jti"]`, `none` when the claim is absent. -/
structure JWTClaims where
  tokenID : Option String := none
deriving DecidableEq, Repr

/-- The context the introspection engine runs in.  `isJWS` and
`validClaims` abstract the JOSE layer (`utils.IsJWS` and
`utils.ValidClaims`, signature verification against a server key):
`validClaims` yields `none` exactly when verification fails.  The two
lookups abstract the `GrantSession` store. -/
structure Context where
  now : Int
  isJWS : String → Bool
  validClaims : String → Option JWTClaims
  grantSessionByRefreshToken : String → Option GrantSession
  grantSessionByTokenID : String → Option GrantSession

/-- `getRefreshTokenIntrospectionInfo` from the `introspection` package
(second document of `src/internal/oauth/token/refresh_token.go`). -/
def getRefreshTokenIntrospectionInfo (ctx : Context) (token : String) :
    TokenIntrospectionInfo :=
  match ctx.grantSessionByRefreshToken token with
  | none => {}
  | some grantSession =>
    if IsRefreshSessionExpired ctx.now grantSession then {}
    else
      { isActive := true
        scopes := grantSession.grantedScopes
        clientID := grantSession.clientID
        subject := grantSession.subject
        expiresAtTimestamp := grantSession.expiresAtTimestamp
        jwkThumbprint := grantSession.jwkThumbprint
        clientCertificateThumbprint := grantSession.clientCertificateThumbprint }

/-- `tokenIntrospectionInfoByID` from the `introspection` package. -/
def tokenIntrospectionInfoByID (ctx : Context) (tokenID : String) :
    TokenIntrospectionInfo :=
  match ctx.grantSessionByTokenID tokenID with
  | none => {}
  | some grantSession =>
    if HasLastTokenExpired ctx.now grantSession then {}
    else
      { isActive := true
        scopes := grantSession.activeScopes
        clientID := grantSession.clientID
        subject := grantSession.subject
        expiresAtTimestamp :=
          grantSession.lastTokenIssuedAtTimestamp + grantSession.tokenLifetimeSecs
        jwkThumbprint := grantSession.jwkThumbprint
        clientCertificateThumbprint := grantSession.clientCertificateThumbprint }

/-- `getJWTTokenIntrospectionInfo` from the `introspection` package:
inactive when signature verification fails or the `jti` claim is absent,
else look the grant session up by `token_id = jti`. -/
def getJWTTokenIntrospectionInfo (ctx : Context) (token : String) :
    TokenIntrospectionInfo :=
  match ctx.validClaims token with
  | none => {}
  | some claims =>
    match claims.tokenID with
    | none => {}
    | some tokenID => tokenIntrospectionInfoByID ctx tokenID

/-- `opaqueTokenIntrospectionInfo` from the `introspection` package. -/
def opaqueTokenIntrospectionInfo (ctx : Context) (token : String) :
    TokenIntrospectionInfo :=
  tokenIntrospectionInfoByID ctx token

/-- `tokenIntrospectionInfo` from the `introspection` package: dispatch on
the token's shape. -/
def tokenIntrospectionInfo (ctx : Context) (token : String) :
    TokenIntrospectionInfo :=
  if token.length = RefreshTokenLength then
    getRefreshTokenIntrospectionInfo ctx token
  else if ctx.isJWS token then
    getJWTTokenIntrospectionInfo ctx token
  else
    opaqueTokenIntrospectionInfo ctx token

/-- The introspection behaviour as the specification states it, written
from the spec's words independently of the Go control flow, to be compared
with `tokenIntrospectionInfo`: dispatch by shape (length 99 means refresh
token; else a JWS is verified and its `jti` is the token id; else the token
itself is the token id), inactive on any miss, on refresh expiry
(`expires_at < now`) or on access-token expiry
(`last_token_issued_at + token_lifetime < now`), else active with the
session's data. -/
def introspectionInfoSpec (ctx : Context) (token : String) :
    TokenIntrospectionInfo :=
  if token.length = 99 then
    match ctx.grantSessionByRefreshToken token with
    | none => {}
    | some g =>
      if g.expiresAtTimestamp < ctx.now then {}
      else
        { isActive := true
          scopes := g.grantedScopes
          clientID := g.clientID
          subject := g.subject
          expiresAtTimestamp := g.expiresAtTimestamp
          jwkThumbprint := g.jwkThumbprint
          clientCertificateThumbprint := g.clientCertificateThumbprint }
  else
    let tokenID? : Option String :=
      if ctx.isJWS token then (ctx.validClaims token).bind (fun c => c.tokenID)
      else some token
    match tokenID? with
    | none => {}
    | some tokenID =>
      match ctx.grantSessionByTokenID tokenID with
      | none => {}
      | some g =>
        if g.lastTokenIssuedAtTimestamp + g.tokenLifetimeSecs < ctx.now then {}
        else
          { isActive := true
            scopes := g.activeScopes
            clientID := g.clientID
            subject := g.subject
            expiresAtTimestamp := g.lastTokenIssuedAtTimestamp + g.tokenLifetimeSecs
            jwkThumbprint := g.jwkThumbprint
            clientCertificateThumbprint := g.clientCertificateThumbprint }

end Introspection

namespace Authorize

open Goidc

/-- The `models.AuthnSession` record of the `authorize` flow, restricted to
the fields `authorizeAuthnSession` touches. -/
structure AuthnSession where
  id : String := ""
  clientID : String := ""
  responseType : String := ""
  authorizationCode : String := ""
  authorizedAtTimestamp : Int := 0
deriving DecidableEq, Repr

/-- The `AuthnSession` store, keyed by session id. -/
def AuthnSessionStore : Type := String → Option AuthnSession

/-- `ctx.DeleteAuthnSession`. -/
def DeleteAuthnSession (store : AuthnSessionStore) (id : String) : AuthnSessionStore :=
  fun i => if i = id then none else store i

/-- `ctx.CreateOrUpdateAuthnSession`. -/
def CreateOrUpdateAuthnSession (store : AuthnSessionStore) (session : AuthnSession) :
    AuthnSessionStore :=
  fun i => if i = session.id then some session else store i

/-- `AuthnSession.InitAuthorizationCode`: store a freshly generated
authorization code (`unit.GenerateAuthorizationCode`, a 30-character random
string, passed in as `code`) and stamp the authorization time. -/
def InitAuthorizationCode (now : Int) (code : String) (session : AuthnSession) :
    AuthnSession :=
  { session with authorizationCode := code, authorizedAtTimestamp := now }

/-- `authorizeAuthnSession` from `src/unnamed/part_006`: when the response
type does not contain `code` the session is deleted; then - on every path -
an authorization code is initialized and the session is saved again with
`CreateOrUpdateAuthnSession`.  Store errors, which the Go code surfaces as
`internal_error`, are not represented: the embedded store operations always
succeed. -/
def authorizeAuthnSession (now : Int) (code : String) (store : AuthnSessionStore)
    (session : AuthnSession) : AuthnSessionStore × AuthnSession :=
  let store1 :=
    if ¬ ResponseTypeContains session.responseType "code" then
      DeleteAuthnSession store session.id
    else store
  let session1 := InitAuthorizationCode now code session
  (CreateOrUpdateAuthnSession store1 session1, session1)

/-- A concrete in-flight session whose response type does not contain
`code`: the failing input of the session-deletion property. -/
def implicitSession : AuthnSession :=
  { id := "sess1", clientID := "c1", responseType := "id_token" }

/-- A concrete store holding exactly `implicitSession`. -/
def storeWithImplicitSession : AuthnSessionStore :=
  fun i => if i = "sess1" then some implicitSession else none

end Authorize

namespace Token

open Goidc

/-- The client fields the refresh-token grant reads. -/
structure Client where
  id : String := ""
  grantTypes : List GrantType := []
deriving DecidableEq, Repr

/-- Modelled from the spec: `Client.IsGrantTypeAllowed` is not under `src`;
per the data model a client carries its allowed grant types and a grant
type is allowed when it is among them. -/
def IsGrantTypeAllowed (c : Client) (grantType : GrantType) : Bool :=
  c.grantTypes.contains grantType

/-- The token-request fields the refresh-token grant reads. -/
structure TokenRequest where
  refreshToken : String := ""
  scopes : String := ""
deriving DecidableEq, Repr

/-- `preValidateRefreshTokenGrantRequest` from
`src/internal/oauth/token/refresh_token.go`. -/
def preValidateRefreshTokenGrantRequest (req : TokenRequest) : Option ErrorCode :=
  if req.refreshToken = "" then some ErrorCode.invalidRequest else none

/-- `validateRefreshTokenGrantRequest` from
`src/internal/oauth/token/refresh_token.go`: grant type allowed, client
matches the session, refresh session not expired, requested scopes within
the granted ones. -/
def validateRefreshTokenGrantRequest (now : Int) (req : TokenRequest)
    (client : Client) (grantSession : GrantSession) : Option ErrorCode :=
  if ¬ IsGrantTypeAllowed client GrantType.refreshToken then
    some ErrorCode.unauthorizedClient
  else if client.id ≠ grantSession.clientID then
    some ErrorCode.invalidGrant
  else if IsRefreshSessionExpired now grantSession then
    some ErrorCode.unauthorizedClient
  else if req.scopes ≠ "" ∧ ¬ ContainsAllScopes grantSession.grantedScopes req.scopes then
    some ErrorCode.invalidScope
  else none

/-- Modelled from the spec: `unit.GenerateRefreshToken` is not under `src`;
the spec fixes refresh tokens to random strings of
`RefreshTokenLength = 99` characters, built with `goidc.RandomString`. -/
def GenerateRefreshToken (pick : Nat → Fin ClientSecretCharset.length) : String :=
  RandomString pick RefreshTokenLength

/-- `updateRefreshTokenGrantSession` from
`src/internal/oauth/token/refresh_token.go`: stamp the new issue time and
token id, rotate the refresh token when rotation is enabled (the freshly
generated value is passed in as `newRefreshToken`), and narrow the active
scopes to the requested ones when scopes were requested.  The final
`CreateOrUpdate` persists the returned session. -/
def updateRefreshTokenGrantSession (now : Int) (shouldRotateRefreshTokens : Bool)
    (newRefreshToken : String) (grantSession : GrantSession) (req : TokenRequest)
    (tokenID : String) : GrantSession :=
  let g1 := { grantSession with lastTokenIssuedAtTimestamp := now, tokenID := tokenID }
  let g2 :=
    if shouldRotateRefreshTokens then { g1 with refreshToken := newRefreshToken }
    else g1
  if req.scopes ≠ "" then { g2 with activeScopes := req.scopes } else g2

end Token

namespace Clientutil

open Goidc

/-- The `go-jose` `jwt.Claims` fields the client-assertion validation
reads.  `id` is the `jti` claim (`""` when absent, the Go zero value);
`expiry` and `issuedAt` are numeric-date seconds, `none` when absent. -/
structure AssertionClaims where
  issuer : String := ""
  subject : String := ""
  audience : List String := []
  id : String := ""
  expiry : Option Int := none
  issuedAt : Option Int := none
deriving DecidableEq, Repr

/-- The `go-jose` `jwt.Expected` fields `areClaimsValid` sets; the `Time`
field is left at the zero time, under which `go-jose` skips the time-based
claim checks. -/
structure Expected where
  issuer : String := ""
  subject : String := ""
  id : String := ""
  anyAudience : List String := []
deriving DecidableEq, Repr

/-- `go-jose` v4 `Claims.ValidateWithLeeway` with leeway 0 and a zero
`Expected.Time`: an empty expectation is skipped; `AnyAudience` requires
some expected audience to appear in the claim's audience list; with the
zero time the `exp`, `nbf` and `iat` ordering checks are skipped. -/
def ValidateWithZeroLeeway (c : AssertionClaims) (e : Expected) : Bool :=
  if e.issuer ≠ "" ∧ e.issuer ≠ c.issuer then false
  else if e.subject ≠ "" ∧ e.subject ≠ c.subject then false
  else if e.id ≠ "" ∧ e.id ≠ c.id then false
  else if e.anyAudience ≠ [] ∧ e.anyAudience.all (fun aud => ¬ c.audience.contains aud) then
    false
  else true

/-- `areClaimsValid` from `src/internal/clientutil/authn.go`: `exp` and
`iat` must be present, their difference bounded by the configured assertion
lifetime, then `ValidateWithLeeway` with expected issuer and subject both
the client id, any of the server's audiences, and zero leeway.  Every
failure is an `invalid_client` error. -/
def areClaimsValid (assertionLifetimeSecs : Int) (audiences : List String)
    (clientID : String) (claims : AssertionClaims) : Option ErrorCode :=
  match claims.expiry with
  | none => some ErrorCode.invalidClient
  | some exp =>
    match claims.issuedAt with
    | none => some ErrorCode.invalidClient
    | some iat =>
      if exp - iat > assertionLifetimeSecs then some ErrorCode.invalidClient
      else if ValidateWithZeroLeeway claims
          { issuer := clientID, subject := clientID, anyAudience := audiences } then
        none
      else some ErrorCode.invalidClient

/-- A concrete client assertion with no `jti` claim that satisfies every
other condition of the assertion claim contract. -/
def assertionWithoutJTI : AssertionClaims :=
  { issuer := "client-a"
    subject := "client-a"
    audience := ["https://auth.example.com"]
    id := ""
    expiry := some 1000
    issuedAt := some 900 }

end Clientutil

namespace Oidc

open Goidc

/-- The grant information handed to the host's `TokenOptionsFunc`; its
content is irrelevant to the adjustment modelled here. -/
structure GrantInfo where
  clientID : String := ""
  subject : String := ""
  grantedScopes : String := ""
deriving DecidableEq, Repr

/-- The `goidc.TokenOptions` template for access tokens
(`src/unnamed/part_001`). -/
structure TokenOptions where
  format : TokenFormat := TokenFormat.jwt
  lifetimeSecs : Int := 0
  jwtSignatureKeyID : String := ""
  opaqueLength : Int := 0
deriving DecidableEq, Repr

/-- `Context.TokenOptions` from `src/unnamed/part_002`: run the
host-supplied function, then bump an opaque length equal to
`RefreshTokenLength` by one so opaque access tokens can never be the same
size as refresh tokens. -/
def ContextTokenOptions (tokenOptionsFunc : GrantInfo → TokenOptions)
    (grantInfo : GrantInfo) : TokenOptions :=
  let opts := tokenOptionsFunc grantInfo
  if opts.opaqueLength = (RefreshTokenLength : Int) then
    { opts with opaqueLength := opts.opaqueLength + 1 }
  else opts

end Oidc

namespace Dcr

open Goidc

/-- `validateOpenIDScopeIfRequired` from `src/unnamed/part_003`: nothing to
check unless the server requires the `openid` scope; then the Go condition
`dynamicClient.Scopes != "" || !goidc.ScopesContainsOpenID(dynamicClient.Scopes)`
decides rejection (sic: the first disjunct tests non-emptiness). -/
def validateOpenIDScopeIfRequired (openIDScopeIsRequired : Bool) (scopes : String) :
    Option ErrorCode :=
  if ¬ openIDScopeIsRequired then none
  else if scopes ≠ "" ∨ ¬ ScopesContainsOpenID scopes then
    some ErrorCode.invalidRequest
  else none

end Dcr

namespace Inputs

open Goidc

/-- A configuration with introspection enabled, no `none` anywhere, and the
introspection methods a subset of the server's methods: per the spec it
passes validation. -/
def introspectionPrivateKeyCfg : Provider.Config :=
  { introspectionIsEnabled := true
    clientAuthnMethods := [ClientAuthnType.privateKeyJWT]
    introspectionClientAuthnMethods := [ClientAuthnType.privateKeyJWT] }

/-- A configuration offering `none` for introspection: per the spec it
fails validation. -/
def introspectionNoneCfg : Provider.Config :=
  { introspectionIsEnabled := true
    clientAuthnMethods := [ClientAuthnType.noneAuthn, ClientAuthnType.privateKeyJWT]
    introspectionClientAuthnMethods := [ClientAuthnType.noneAuthn] }

/-- A FAPI 2.0 configuration with every other field at its zero value: PAR
and PKCE are not required, so validation must fail. -/
def fapi2DefaultCfg : Provider.Config :=
  { profile := Profile.fapi2 }

/-- A refresh-token request carrying a refresh token and a narrowed scope. -/
def refreshReq : Token.TokenRequest :=
  { refreshToken := "refresh-token-value", scopes := "openid" }

/-- A client allowed to use the refresh-token grant. -/
def refreshClient : Token.Client :=
  { id := "c1", grantTypes := [GrantType.refreshToken] }

/-- A grant session issued to a different client than `refreshClient`. -/
def refreshGrantSession : GrantSession :=
  { clientID := "c2", grantedScopes := "openid email", expiresAtTimestamp := 1000 }

end Inputs

/-! ## Theorems -/

/-- Helper: `RandomString` builds a string of exactly the requested number
of characters, whatever the random source picks. -/
theorem RandomString_length (pick : Nat → Fin Goidc.ClientSecretCharset.length) (n : Nat) :
    (Goidc.RandomString pick n).length = n := by
  simp [Goidc.RandomString, String.length]

/-- C10 (counterexample): the nil `Resources` slice - the type's zero
value - does not round-trip: it marshals to JSON `null`, and unmarshaling
`null` takes the string-decode branch (a no-op success leaving the zero
value `""`), so the round trip returns the one-element list `[""]`, not
the nil slice, and not through a JSON array. -/
theorem resources_nil_roundtrip_fails :
    Goidc.resourcesMarshalJSON none = Goidc.JSONValue.null ∧
    Goidc.resourcesUnmarshalJSON (Goidc.resourcesMarshalJSON none) = some (some [""]) ∧
    Goidc.resourcesUnmarshalJSON (Goidc.resourcesMarshalJSON none)
      ≠ some (none : Goidc.Resources) := by
  refine ⟨rfl, rfl, by decide⟩

/-- C10 (amended): JSON-unmarshaling the output of JSON-marshaling any
non-nil `Resources` list yields the list back: a one-element list is
serialized as a bare JSON string and deserialized back to the same
one-element list, and non-nil lists of any other length round-trip through
a JSON array (so both the single-string and array `aud` encodings are
accepted and preserved); only the nil slice breaks the round trip, coming
back as `[""]`. -/
theorem resources_marshal_unmarshal_roundtrip (elems : List String) :
    Goidc.resourcesUnmarshalJSON (Goidc.resourcesMarshalJSON (some elems))
      = some (some elems) ∧
    (∀ s : String, Goidc.resourcesMarshalJSON (some [s]) = Goidc.JSONValue.str s) ∧
    (elems.length ≠ 1 →
      Goidc.resourcesMarshalJSON (some elems) = Goidc.JSONValue.arr elems) := by
  refine ⟨?_, fun s => rfl, ?_⟩
  · match elems with
    | [] => rfl
    | [r] => rfl
    | a :: b :: rest => rfl
  · intro h
    match elems with
    | [] => rfl
    | [r] => exact absurd rfl h
    | a :: b :: rest => rfl

/-- C2 (failing input): run `authorizeAuthnSession` on a successful session
whose response type is `id_token` (no `code`).  The code deletes the
session but then unconditionally generates an authorization code and saves
the session again, so the session is still retrievable afterwards - against
the claim (and the function's own comment) that it is deleted. -/
theorem authorizeAuthnSession_keeps_codeless_session :
    Goidc.ResponseTypeContains Authorize.implicitSession.responseType "code" = false ∧
    (Authorize.authorizeAuthnSession 100 "authzcode" Authorize.storeWithImplicitSession
        Authorize.implicitSession).1 "sess1"
      = some { Authorize.implicitSession with
                 authorizationCode := "authzcode", authorizedAtTimestamp := 100 } := by
  constructor
  · rfl
  · rfl

/-- C4 (failing input): with introspection enabled, server methods
`[private_key_jwt]` and introspection methods `[private_key_jwt]` - which
the claim says passes - the validator errors, because its condition is
inverted (it demands that the server's `ClientAuthnMethods` contain
`none`); and the configuration offering `none` for introspection - which
the claim says is rejected - passes. -/
theorem validateIntrospection_inverted :
    Provider.validateIntrospectionClientAuthnMethods Inputs.introspectionPrivateKeyCfg
      = some "none client authentication method not allowed for token introspection" ∧
    Provider.validateIntrospectionClientAuthnMethods Inputs.introspectionNoneCfg = none := by
  constructor
  · rfl
  · rfl

/-- C8 (failing input): with the `openid` scope required, a registration
request with scopes `"openid profile"` is rejected, and indeed every scope
string whatsoever is rejected: the Go condition reads `Scopes != ""` where
only `Scopes == ""` could make the check meaningful. -/
theorem validateOpenIDScope_rejects_everything :
    Dcr.validateOpenIDScopeIfRequired true "openid profile"
      = some Goidc.ErrorCode.invalidRequest ∧
    ∀ scopes : String, Dcr.validateOpenIDScopeIfRequired true scopes ≠ none := by
  constructor
  · rfl
  · intro scopes
    unfold Dcr.validateOpenIDScopeIfRequired
    by_cases h : scopes = ""
    · subst h
      have hopen : Goidc.ScopesContainsOpenID "" = false := rfl
      simp [hopen]
    · simp [h]

/-- Helper: assigning into a nil-guarded Go map always succeeds (never
panics) and the key reads back to the value just written. -/
theorem goMapAssign_initIfNil_lookup {V : Type} (m : Goidc.GoMap V) (k : String) (v : V) :
    ∃ m2, Goidc.goMapAssign (Goidc.initIfNil m) k v = some m2 ∧
      Goidc.goMapLookup m2 k = some v := by
  cases m with
  | none =>
    refine ⟨some [(k, v)], rfl, ?_⟩
    simp [Goidc.goMapLookup, List.find?]
  | some entries =>
    refine ⟨some ((k, v) :: entries.filter (fun e => e.1 != k)), rfl, ?_⟩
    simp [Goidc.goMapLookup, List.find?]

/-- C9: on every `AuthnSession` - in particular the zero value, whose four
maps are all nil - each of `StoreParameter`, `SetTokenClaim`,
`SetIDTokenClaim` and `SetUserInfoClaim` succeeds without panicking (each
initializes its map when nil), and reading the same key back - via
`Parameter` for the store, via the map for the claim setters - yields the
value just stored. -/
theorem authnSession_setters_never_panic {V : Type} (s : Goidc.AuthnSession V)
    (key : String) (value : V) :
    (∃ s2, Goidc.StoreParameter s key value = some s2 ∧
      Goidc.Parameter s2 key = some value) ∧
    (∃ s2, Goidc.SetTokenClaim s key value = some s2 ∧
      Goidc.goMapLookup s2.additionalTokenClaims key = some value) ∧
    (∃ s2, Goidc.SetIDTokenClaim s key value = some s2 ∧
      Goidc.goMapLookup s2.additionalIDTokenClaims key = some value) ∧
    (∃ s2, Goidc.SetUserInfoClaim s key value = some s2 ∧
      Goidc.goMapLookup s2.additionalUserInfoClaims key = some value) := by
  obtain ⟨m1, h1, l1⟩ := goMapAssign_initIfNil_lookup s.store key value
  obtain ⟨m2, h2, l2⟩ := goMapAssign_initIfNil_lookup s.additionalTokenClaims key value
  obtain ⟨m3, h3, l3⟩ := goMapAssign_initIfNil_lookup s.additionalIDTokenClaims key value
  obtain ⟨m4, h4, l4⟩ := goMapAssign_initIfNil_lookup s.additionalUserInfoClaims key value
  refine ⟨⟨{ s with store := m1 }, ?_, ?_⟩,
    ⟨{ s with additionalTokenClaims := m2 }, ?_, l2⟩,
    ⟨{ s with additionalIDTokenClaims := m3 }, ?_, l3⟩,
    ⟨{ s with additionalUserInfoClaims := m4 }, ?_, l4⟩⟩
  · simp [Goidc.StoreParameter, h1]
  · simpa [Goidc.Parameter] using l1
  · simp [Goidc.SetTokenClaim, h2]
  · simp [Goidc.SetIDTokenClaim, h3]
  · simp [Goidc.SetUserInfoClaim, h4]

/-- Helper: the by-token-id lookup produces exactly the access-token
introspection result the spec describes: inactive on a miss or when
`last_token_issued_at + token_lifetime < now`, else active with the
session's active scopes, client id, subject, computed expiry and
confirmation thumbprints. -/
theorem tokenIntrospectionInfoByID_cases (ctx : Introspection.Context) (tokenID : String) :
    Introspection.tokenIntrospectionInfoByID ctx tokenID =
      match ctx.grantSessionByTokenID tokenID with
      | none => {}
      | some g =>
        if g.lastTokenIssuedAtTimestamp + g.tokenLifetimeSecs < ctx.now then {}
        else
          { isActive := true
            scopes := g.activeScopes
            clientID := g.clientID
            subject := g.subject
            expiresAtTimestamp := g.lastTokenIssuedAtTimestamp + g.tokenLifetimeSecs
            jwkThumbprint := g.jwkThumbprint
            clientCertificateThumbprint := g.clientCertificateThumbprint } := by
  unfold Introspection.tokenIntrospectionInfoByID
  cases ctx.grantSessionByTokenID tokenID with
  | none => rfl
  | some g => simp [Goidc.HasLastTokenExpired]

/-- C1: the introspection engine behaves exactly as the specification
describes it.  `tokenIntrospectionInfo` is the embedding of the Go
dispatch (length-99 refresh path, JWS path via verified claims and the
`jti` token id, opaque path); `introspectionInfoSpec` is written from the
claim's words.  The two agree on every context and every token. -/
theorem tokenIntrospectionInfo_matches_spec (ctx : Introspection.Context) (token : String) :
    Introspection.tokenIntrospectionInfo ctx token =
      Introspection.introspectionInfoSpec ctx token := by
  unfold Introspection.tokenIntrospectionInfo Introspection.introspectionInfoSpec
  simp only [Goidc.RefreshTokenLength]
  by_cases h99 : token.length = 99
  · rw [if_pos h99, if_pos h99]
    unfold Introspection.getRefreshTokenIntrospectionInfo
    rcases hg : ctx.grantSessionByRefreshToken token with _ | g
    · rfl
    · simp [Goidc.IsRefreshSessionExpired]
  · rw [if_neg h99, if_neg h99]
    by_cases hjws : ctx.isJWS token = true
    · rw [if_pos hjws, if_pos hjws]
      unfold Introspection.getJWTTokenIntrospectionInfo
      rcases hc : ctx.validClaims token with _ | claims
      · rfl
      · simp only [Option.some_bind]
        rcases ht : claims.tokenID with _ | tokenID
        · rfl
        · exact tokenIntrospectionInfoByID_cases ctx tokenID
    · rw [if_neg hjws, if_neg hjws]
      unfold Introspection.opaqueTokenIntrospectionInfo
      exact tokenIntrospectionInfoByID_cases ctx token

/-- C3: for a FAPI 2.0 configuration, start-up validation fails exactly
when some configured client authentication method is neither
`private_key_jwt` nor `tls_client_auth`, or the implicit grant is
configured, or PAR is not both enabled and required, or PKCE is not both
enabled and required, or the issuer response parameter is disabled, or the
refresh-token grant is configured together with refresh-token rotation. -/
theorem validateFAPI2Profile_fails_iff (cfg : Provider.Config)
    (hp : cfg.profile = Goidc.Profile.fapi2) :
    (Provider.validateFAPI2Profile cfg).isSome = true ↔
      ((∃ m ∈ cfg.clientAuthnMethods,
          m ≠ Goidc.ClientAuthnType.privateKeyJWT ∧
          m ≠ Goidc.ClientAuthnType.tlsClientAuth) ∨
        Goidc.GrantType.implicit ∈ cfg.grantTypes ∨
        ¬(cfg.parIsEnabled = true ∧ cfg.parIsRequired = true) ∨
        ¬(cfg.pkceIsEnabled = true ∧ cfg.pkceIsRequired = true) ∨
        cfg.issuerRespParamIsEnabled = false ∨
        (Goidc.GrantType.refreshToken ∈ cfg.grantTypes ∧
          cfg.refreshTokenRotationIsEnabled = true)) := by
  unfold Provider.validateFAPI2Profile
  rw [if_neg (by simp [hp])]
  split_ifs with hAuthn hImplicit hPAR hPKCE hIss hRot
  · simp only [Option.isSome_some, true_iff]
    exact Or.inl (by simpa [List.any_eq_true, bne_iff_ne] using hAuthn)
  · simp only [Option.isSome_some, true_iff]
    exact Or.inr (Or.inl (by simpa using hImplicit))
  · simp only [Option.isSome_some, true_iff]
    refine Or.inr (Or.inr (Or.inl fun hand => ?_))
    rcases (by simpa [Bool.not_eq_true'] using hPAR :
        cfg.parIsEnabled = false ∨ cfg.parIsRequired = false) with h | h <;>
      simp [hand.1, hand.2] at h
  · simp only [Option.isSome_some, true_iff]
    refine Or.inr (Or.inr (Or.inr (Or.inl fun hand => ?_)))
    rcases (by simpa [Bool.not_eq_true'] using hPKCE :
        cfg.pkceIsEnabled = false ∨ cfg.pkceIsRequired = false) with h | h <;>
      simp [hand.1, hand.2] at h
  · simp only [Option.isSome_some, true_iff]
    exact Or.inr (Or.inr (Or.inr (Or.inr (Or.inl (by simpa [Bool.not_eq_true'] using hIss)))))
  · simp only [Option.isSome_some, true_iff]
    exact Or.inr (Or.inr (Or.inr (Or.inr (Or.inr (by simpa using hRot)))))
  · simp only [Option.isSome_none, Bool.false_eq_true, false_iff]
    rintro (⟨m, hm, h1, h2⟩ | him | hpar | hpkce | hiss | ⟨hmem, hrot⟩)
    · simp only [List.any_eq_true, bne_iff_ne, ne_eq, Bool.and_eq_true] at hAuthn
      exact hAuthn ⟨m, hm, h1, h2⟩
    · have h : Goidc.GrantType.implicit ∉ cfg.grantTypes := by simpa using hImplicit
      exact h him
    · exact hpar (by simpa [Bool.not_eq_true', not_or, Bool.not_eq_false] using hPAR)
    · exact hpkce (by simpa [Bool.not_eq_true', not_or, Bool.not_eq_false] using hPKCE)
    · have h : cfg.issuerRespParamIsEnabled = true := by simpa [Bool.not_eq_true'] using hIss
      simp [h] at hiss
    · have h : ¬(Goidc.GrantType.refreshToken ∈ cfg.grantTypes ∧
          cfg.refreshTokenRotationIsEnabled = true) := by simpa using hRot
      exact h ⟨hmem, hrot⟩

/-- C3 (witness): the FAPI 2.0 configuration with every other field at its
zero value fails validation, PAR not being enabled and required. -/
theorem validateFAPI2Profile_fails_iff_witness :
    (Provider.validateFAPI2Profile Inputs.fapi2DefaultCfg).isSome = true :=
  (validateFAPI2Profile_fails_iff Inputs.fapi2DefaultCfg rfl).mpr
    (Or.inr (Or.inr (Or.inl (by decide))))

/-- Helper: the claim-side reading of the `go-jose` validation as
`areClaimsValid` configures it (expected issuer and subject the client id,
any of the server audiences, zero leeway, zero expected time). -/
theorem ValidateWithZeroLeeway_true_iff (c : Clientutil.AssertionClaims)
    (clientID : String) (audiences : List String) :
    Clientutil.ValidateWithZeroLeeway c
        { issuer := clientID, subject := clientID, anyAudience := audiences } = true ↔
      ((clientID ≠ "" → c.issuer = clientID ∧ c.subject = clientID) ∧
        (audiences ≠ [] → ∃ aud ∈ audiences, aud ∈ c.audience)) := by
  unfold Clientutil.ValidateWithZeroLeeway
  dsimp only
  split_ifs with h1 h2 h3 h4
  · simp only [Bool.false_eq_true, false_iff, not_and]
    intro hiss _
    exact h1.2 ((hiss h1.1).1.symm)
  · simp only [Bool.false_eq_true, false_iff, not_and]
    intro hiss _
    exact h2.2 ((hiss h2.1).2.symm)
  · exact absurd h3.1 (by simp)
  · simp only [Bool.false_eq_true, false_iff, not_and]
    intro _ haud
    obtain ⟨aud, hmem, hin⟩ := haud h4.1
    have hall := h4.2
    simp only [List.all_eq_true, decide_eq_true_eq] at hall
    exact (hall aud hmem) (by simpa using hin)
  · simp only [true_iff]
    refine ⟨fun hne => ⟨?_, ?_⟩, fun hne => ?_⟩
    · have h := not_and.mp h1 hne
      push_neg at h
      exact h.symm
    · have h := not_and.mp h2 hne
      push_neg at h
      exact h.symm
    · have h := not_and.mp h4 hne
      simp only [List.all_eq_true, decide_eq_true_eq, not_forall] at h
      obtain ⟨aud, hmem, hcon⟩ := h
      push_neg at hcon
      exact ⟨aud, hmem, by simpa using hcon⟩

/-- C5 (amended): a client assertion passes `areClaimsValid` - for both
`private_key_jwt` and `client_secret_jwt`, which share it - exactly when
the `exp` claim is present, the `iat` claim is present, `exp - iat` is at
most the configured assertion lifetime, issuer and subject equal the
client id (a check go-jose skips for an empty expectation), and the
audience intersects the server's advertised audiences (skipped when none
are advertised); claim validation uses zero leeway and a zero expected
time, and the `jti` claim is never consulted. -/
theorem areClaimsValid_ok_iff (assertionLifetimeSecs : Int) (audiences : List String)
    (clientID : String) (claims : Clientutil.AssertionClaims) :
    Clientutil.areClaimsValid assertionLifetimeSecs audiences clientID claims = none ↔
      ∃ exp iat, claims.expiry = some exp ∧ claims.issuedAt = some iat ∧
        exp - iat ≤ assertionLifetimeSecs ∧
        (clientID ≠ "" → claims.issuer = clientID ∧ claims.subject = clientID) ∧
        (audiences ≠ [] → ∃ aud ∈ audiences, aud ∈ claims.audience) := by
  unfold Clientutil.areClaimsValid
  rcases hexp : claims.expiry with _ | exp
  · simp [hexp]
  · rcases hiat : claims.issuedAt with _ | iat
    · simp [hiat]
    · simp only [hexp, hiat, Option.some.injEq]
      split_ifs with hlife hvalid
      · simp only [reduceCtorEq, false_iff, not_exists]
        rintro e i ⟨he, hi, hb, _⟩
        omega
      · simp only [true_iff]
        refine ⟨exp, iat, rfl, rfl, by omega, ?_⟩
        exact (ValidateWithZeroLeeway_true_iff claims clientID audiences).mp hvalid
      · simp only [reduceCtorEq, false_iff, not_exists]
        rintro e i ⟨he, hi, hb, hrest⟩
        refine hvalid ((ValidateWithZeroLeeway_true_iff claims clientID audiences).mpr ?_)
        exact hrest

/-- C6: for a refresh-token grant request by a client allowed the grant,
validation fails with `invalid_grant` when the client differs from the
session's client, fails when the refresh session is expired, fails with
`invalid_scope` when scopes are requested beyond the granted ones; and on
the update path the session gets the new issue time and token id, the
active scopes are narrowed exactly when scopes were requested, and with
rotation enabled the refresh token becomes the freshly generated
99-character value (so it differs from the presented one whenever the
generator output does). -/
theorem refreshTokenGrant_validate_and_update (now : Int) (req : Token.TokenRequest)
    (client : Token.Client) (grantSession : Goidc.GrantSession)
    (hTok : req.refreshToken ≠ "")
    (hAllowed : Token.IsGrantTypeAllowed client Goidc.GrantType.refreshToken = true) :
    Token.preValidateRefreshTokenGrantRequest req = none ∧
    (client.id ≠ grantSession.clientID →
      Token.validateRefreshTokenGrantRequest now req client grantSession
        = some Goidc.ErrorCode.invalidGrant) ∧
    (Goidc.IsRefreshSessionExpired now grantSession = true →
      Token.validateRefreshTokenGrantRequest now req client grantSession ≠ none) ∧
    (client.id = grantSession.clientID →
      Goidc.IsRefreshSessionExpired now grantSession = false →
      req.scopes ≠ "" →
      Goidc.ContainsAllScopes grantSession.grantedScopes req.scopes = false →
      Token.validateRefreshTokenGrantRequest now req client grantSession
        = some Goidc.ErrorCode.invalidScope) ∧
    (∀ (rotate : Bool) (newRefreshToken tokenID : String),
      (Token.updateRefreshTokenGrantSession now rotate newRefreshToken grantSession req
          tokenID).lastTokenIssuedAtTimestamp = now ∧
      (Token.updateRefreshTokenGrantSession now rotate newRefreshToken grantSession req
          tokenID).tokenID = tokenID ∧
      (req.scopes ≠ "" →
        (Token.updateRefreshTokenGrantSession now rotate newRefreshToken grantSession req
            tokenID).activeScopes = req.scopes) ∧
      (req.scopes = "" →
        (Token.updateRefreshTokenGrantSession now rotate newRefreshToken grantSession req
            tokenID).activeScopes = grantSession.activeScopes) ∧
      (rotate = true →
        (Token.updateRefreshTokenGrantSession now rotate newRefreshToken grantSession req
            tokenID).refreshToken = newRefreshToken) ∧
      (rotate = false →
        (Token.updateRefreshTokenGrantSession now rotate newRefreshToken grantSession req
            tokenID).refreshToken = grantSession.refreshToken) ∧
      (rotate = true → newRefreshToken ≠ req.refreshToken →
        (Token.updateRefreshTokenGrantSession now rotate newRefreshToken grantSession req
            tokenID).refreshToken ≠ req.refreshToken)) ∧
    (∀ pick : Nat → Fin Goidc.ClientSecretCharset.length,
      (Token.GenerateRefreshToken pick).length = Goidc.RefreshTokenLength) := by
  refine ⟨?_, ?_, ?_, ?_, ?_, ?_⟩
  · simp [Token.preValidateRefreshTokenGrantRequest, hTok]
  · intro hne
    simp [Token.validateRefreshTokenGrantRequest, hAllowed, hne]
  · intro hexpired
    unfold Token.validateRefreshTokenGrantRequest
    rw [if_neg (by simp [hAllowed])]
    by_cases hid : client.id ≠ grantSession.clientID
    · rw [if_pos hid]
      simp
    · rw [if_neg hid, if_pos hexpired]
      simp
  · intro hid hfresh hscope hsub
    simp [Token.validateRefreshTokenGrantRequest, hAllowed, hid, hfresh, hscope, hsub]
  · intro rotate newRefreshToken tokenID
    unfold Token.updateRefreshTokenGrantSession
    by_cases hs : req.scopes = "" <;> cases rotate <;>
      simp_all
  · intro pick
    exact RandomString_length pick Goidc.RefreshTokenLength

/-- C6 (witness): with the concrete request, client and session above -
the client allowed the grant but distinct from the session's client - the
theorem yields the `invalid_grant` failure. -/
theorem refreshTokenGrant_validate_and_update_witness :
    Token.validateRefreshTokenGrantRequest 0 Inputs.refreshReq Inputs.refreshClient
      Inputs.refreshGrantSession = some Goidc.ErrorCode.invalidGrant :=
  (refreshTokenGrant_validate_and_update 0 Inputs.refreshReq Inputs.refreshClient
      Inputs.refreshGrantSession (by decide) (by decide)).2.1 (by decide)

/-- C7: the effective token options never carry the refresh-token length
99 as an opaque length: a host-returned opaque length of 99 is bumped to
100, any other value is kept, so an opaque access token minted at the
effective length never has length 99 while a generated refresh token
always has length exactly 99. -/
theorem tokenOptions_opaque_never_99 (tokenOptionsFunc : Oidc.GrantInfo → Oidc.TokenOptions)
    (grantInfo : Oidc.GrantInfo) (pick : Nat → Fin Goidc.ClientSecretCharset.length) :
    (Oidc.ContextTokenOptions tokenOptionsFunc grantInfo).opaqueLength
        ≠ (Goidc.RefreshTokenLength : Int) ∧
    ((tokenOptionsFunc grantInfo).opaqueLength = (Goidc.RefreshTokenLength : Int) →
      (Oidc.ContextTokenOptions tokenOptionsFunc grantInfo).opaqueLength = 100) ∧
    (Goidc.RandomString pick
        (Oidc.ContextTokenOptions tokenOptionsFunc grantInfo).opaqueLength.toNat).length
      ≠ Goidc.RefreshTokenLength ∧
    (Token.GenerateRefreshToken pick).length = Goidc.RefreshTokenLength := by
  have hne : (Oidc.ContextTokenOptions tokenOptionsFunc grantInfo).opaqueLength
      ≠ (Goidc.RefreshTokenLength : Int) := by
    unfold Oidc.ContextTokenOptions
    by_cases h : (tokenOptionsFunc grantInfo).opaqueLength = (Goidc.RefreshTokenLength : Int)
    · simp only [h, if_pos rfl]
      simp [Goidc.RefreshTokenLength]
    · simp [h]
  refine ⟨hne, ?_, ?_, RandomString_length pick Goidc.RefreshTokenLength⟩
  · intro h
    unfold Oidc.ContextTokenOptions
    simp only [h, if_pos rfl]
    simp [Goidc.RefreshTokenLength, h]
  · rw [RandomString_length]
    have h99 : (Goidc.RefreshTokenLength : Int) = 99 := rfl
    rw [h99] at hne
    simp only [Goidc.RefreshTokenLength]
    omega

/-- C5 (counterexample): a client assertion with no `jti` claim, but valid
`exp`, `iat`, lifetime, issuer, subject and audience, passes
`areClaimsValid` - the claim's requirement that a missing or replayed `jti`
fail validation does not hold: the function never reads the `jti` claim. -/
theorem areClaimsValid_accepts_missing_jti :
    Clientutil.areClaimsValid 300 ["https://auth.example.com"] "client-a"
        Clientutil.assertionWithoutJTI = none ∧
    Clientutil.assertionWithoutJTI.id = "" := by
  constructor
  · rfl
  · rfl
